import Mathlib

/-!
Verification of the te-cli task lifecycle coordinator.

A shallow embedding of the coordinator code (`common_utils.py`,
`process_helpers.py`, `core/build_helpers.py`, `core/test_helpers.py`).
External OS state (filesystem metadata, the process table as seen through
the `pgrep`/`pkill`/`ps`/`du` tools, and console input) is modelled by an
environment record of oracles; side effects (console lines, reads, kills,
sleeps, file opens, process spawns) are modelled as an explicit effect
trace returned alongside each function's integer status.  Python
exceptions that a function does not catch are modelled with `Except`.
-/

namespace TE

/-- Metadata of an existing file as seen by `os.path.exists` /
`os.path.getsize` / `os.stat` (`st_mtime` coarsened to `Nat`). -/
structure FileInfo where
  size : Nat
  mtime : Nat
deriving Repr, DecidableEq

/-- Outcome of invoking an external tool through
`subprocess.check_output` / `subprocess.check_call`:
the tool ran and exited with a code (nonzero raises
`CalledProcessError`), or its executable was absent
(raises `FileNotFoundError`).  The source passes no `timeout=` argument
to these calls, so `TimeoutExpired` cannot arise and has no constructor
here. -/
inductive RunOutcome where
  | completed (exitCode : Nat) (stdout : String)
  | toolMissing
deriving Repr, DecidableEq

/-- Python exceptions that escape the embedded functions uncaught. -/
inductive PyErr where
  | fileNotFound
  | indexError
deriving Repr, DecidableEq

/-- Oracles for the external OS state one invocation observes. -/
structure Env where
  /-- filesystem metadata: `none` means the path does not exist -/
  fs : String → Option FileInfo
  /-- `os.path.isdir` -/
  isDir : String → Bool
  /-- `str(Path(p).resolve().parent)` -/
  resolveParent : String → String
  /-- outcome of `subprocess.check_output(["pgrep", "-f", pattern])` -/
  pgrepRun : String → RunOutcome
  /-- does `subprocess.check_call(["pkill", sig, "-f", pattern])` exit 0? -/
  pkillOk : String → Bool
  /-- stdout of `ps -p pid -o lstart=`; `none` models `CalledProcessError` -/
  psStart : String → Option String
  /-- stdout of `ps -p pid -o etime=`; `none` models `CalledProcessError` -/
  psElapsed : String → Option String
  /-- stdout of `du -h path`; `none` models any exception from the call -/
  duOut : String → Option String
  /-- the line `input()` returns; `none` models `EOFError` -/
  stdinLine : Option String

/-- The dynamic payload of each console line the coordinator prints.
One constructor per `print` statement in the source; fixed colour/format
text is elided, interpolated data is carried as fields (PID lists are
carried as lists; the source renders them with `" ".join`). -/
inductive Msg where
  | runningTasksHeader
  | blank
  | noRunningTasks
  | buildTaskHeader
  | testTaskHeader (name : String)
  | pidsLine (pids : List String)
  | viewLine (cmd : String)
  | killLine (cmd : String)
  | logExistsWarn
  | logPathLine (path : String)
  | logSizeLine (size : String)
  | canceledByUser
  | taskAlreadyRunning
  | taskLine (name : String)
  | conflictPids (pids : List String)
  | conflictLog (path : String)
  | conflictView (cmd : String)
  | conflictKill (cmd : String)
  | taskRunningWarn (name : String)
  | killPids (pids : List String)
  | startedLine (t : String)
  | elapsedLine (t : String)
  | killedMsg (name : String)
  | cancelledInfo
  | noBuildTask
  | noTestTask (name : String)
  | successMsg (m : String)
  | logLine (mark : String) (path : String)
  | errorTePath
deriving Repr, DecidableEq

/-- One observable side effect of an invocation. -/
inductive Effect where
  | print (m : Msg)
  /-- one `input()` call consumed the (single) console line -/
  | readLine
  /-- `subprocess.check_call(["pkill", signal, "-f", pattern])` -/
  | pkillCmd (signal : String) (pattern : String)
  | sleepSec (n : Nat)
  /-- `open(path, "w")`: create/truncate for writing -/
  | openTruncWrite (path : String)
  /-- `subprocess.Popen(argv, stdout=<log>, stderr=STDOUT, cwd?, start_new_session=True)`;
  `mergeErr` records `stderr=subprocess.STDOUT`, `newSession` records
  `start_new_session=True` -/
  | spawnDetached (argv : List String) (stdoutLog : String) (mergeErr : Bool)
      (cwd : Option String) (newSession : Bool)
  /-- a synchronous wait on a spawned child; the Job Launcher never emits it -/
  | waitChild
deriving Repr, DecidableEq

/-- `' '.join(pids)` -/
def joinSpace (l : List String) : String := String.intercalate " " l

/-- Whitespace stripped from both ends of a character list. -/
def stripChars (l : List Char) : List Char :=
  ((l.dropWhile Char.isWhitespace).reverse.dropWhile Char.isWhitespace).reverse

/-- Python `str.strip()` (no arguments): drop surrounding whitespace. -/
def pyStrip (s : String) : String := String.mk (stripChars s.data)

/-- Split a character list at newlines (Python `str.splitlines`, which on
this tool output differs only by a trailing empty piece that the callers
filter away). -/
def linesChars : List Char → List (List Char)
  | [] => [[]]
  | c :: cs =>
    if c = '\n' then [] :: linesChars cs
    else
      match linesChars cs with
      | [] => [[c]]
      | l :: ls => (c :: l) :: ls

/-- Python `str.split()` (no arguments): maximal runs of
non-whitespace characters. -/
def wordsAux : List Char → List Char → List String
  | [], acc => if acc.isEmpty then [] else [String.mk acc.reverse]
  | c :: cs, acc =>
    if c.isWhitespace then
      if acc.isEmpty then wordsAux cs []
      else String.mk acc.reverse :: wordsAux cs []
    else wordsAux cs (c :: acc)

/-- Python `str.split()` on a string. -/
def pyWords (s : String) : List String := wordsAux s.data []

/-- `[line.strip() for line in output.splitlines() if line.strip()]` -/
def splitPids (out : String) : List String :=
  ((linesChars out.data).map (fun l => String.mk (stripChars l))).filter
    (fun s => s ≠ "")

/-- Embedding of `common_utils.pgrep`: runs `pgrep -f pattern`; a nonzero
exit (`CalledProcessError`) is caught and yields `[]`; a missing tool
(`FileNotFoundError`) is NOT caught and propagates. -/
def pgrep (env : Env) (pattern : String) : Except PyErr (List String) :=
  match env.pgrepRun pattern with
  | .completed 0 out => .ok (splitPids out)
  | .completed _ _ => .ok []
  | .toolMissing => .error .fileNotFound

/-- Embedding of `common_utils.pkill`; the source signature is
`pkill(pattern, signal="-9")` and every caller in the coordinator uses the
default, so call sites below pass `"-9"` explicitly. -/
def pkill (env : Env) (pattern : String) (signal : String) : List Effect × Nat :=
  ([Effect.pkillCmd signal pattern], if env.pkillOk pattern then 0 else 1)

/-- Embedding of `common_utils.get_process_start_time`:
`ps -p pid -o lstart=` stripped, `""` on `CalledProcessError`. -/
def get_process_start_time (env : Env) (pid : String) : String :=
  match env.psStart pid with
  | some s => pyStrip s
  | none => ""

/-- Embedding of `common_utils.get_process_elapsed`:
`ps -p pid -o etime=` stripped, `""` on `CalledProcessError`. -/
def get_process_elapsed (env : Env) (pid : String) : String :=
  match env.psElapsed pid with
  | some s => pyStrip s
  | none => ""

/-- Embedding of `common_utils.get_human_size`: first whitespace-separated
token of `du -h` output; `"0"` on any exception (including the
`IndexError` of `split()[0]` on empty output). -/
def get_human_size (env : Env) (filepath : String) : String :=
  match env.duOut filepath with
  | some out =>
    match pyWords (pyStrip out) with
    | [] => "0"
    | w :: _ => w
  | none => "0"

/-- The value `input()` produces for the decision logic: the read line,
or `""` when `EOFError` was caught. -/
def readChoice (env : Env) : String :=
  match env.stdinLine with
  | some s => s
  | none => ""

/-- Log file paths of `Config.log_files` in `config_manager.py`. -/
structure LogFiles where
  build_py : String
  build_cpp : String
  rebuild : String
  build_all : String
  l0cpp : String
  l0torch : String
  l1torch : String
deriving Repr, DecidableEq

/-- The slice of the configuration singleton the coordinator reads.  The
literal text of the generated build/rebuild shell scripts is an external
collaborator (out of the coordinator's scope), so the script generators
`_python_build_script` / `_rebuild_script` appear as opaque-to-us string
producers carried in the configuration. -/
structure Config where
  te_path : String
  log_files : LogFiles
  /-- `_python_build_script(init_script, clean)` text -/
  pyBuildScript : Bool → String
  /-- `_rebuild_script(init_script, te_path, extra_files)` text, from the raw args -/
  rebuildScript : List String → String

/-- Embedding of `process_helpers.confirm_if_log_exists` (the Log
Overwrite Guard): proceed (0) silently when the log is missing or empty,
otherwise report path and size, read one line, proceed iff the stripped
line is `y` or `Y`, else cancel (1); `EOFError` counts as `""`. -/
def confirm_if_log_exists (env : Env) (log_file : String) : List Effect × Nat :=
  match env.fs log_file with
  | some info =>
      if info.size > 0 then
        let file_size := get_human_size env log_file
        let choice := readChoice env
        let effs := [Effect.print Msg.logExistsWarn,
                     Effect.print (Msg.logPathLine log_file),
                     Effect.print (Msg.logSizeLine file_size),
                     Effect.readLine]
        if pyStrip choice = "y" ∨ pyStrip choice = "Y" then (effs, 0)
        else (effs ++ [Effect.print Msg.canceledByUser], 1)
      else ([], 0)
  | none => ([], 0)

/-- Embedding of `process_helpers._find_latest_log`: the candidate with
the greatest modification time (strictly greater than all earlier
candidates and the initial 0), `""` when none exists. -/
def _find_latest_log (env : Env) (log_candidates : List String) : String :=
  (log_candidates.foldl (fun (acc : String × Nat) log_file =>
      match env.fs log_file with
      | some info => if info.mtime > acc.2 then (log_file, info.mtime) else acc
      | none => acc) ("", 0)).1

/-- Embedding of `process_helpers._get_view_command`. -/
def _get_view_command (cfg : Config) (log_file : String) : String :=
  if log_file = cfg.log_files.build_py then "te -b -c -l"
  else if log_file = cfg.log_files.build_cpp then "te -b -t -l"
  else if log_file = cfg.log_files.rebuild then "te -b -r -l"
  else if log_file = cfg.log_files.build_all then "te -b -r -d -l"
  else "te -b -c -l / te -b -t -l / te -b -r -l"

/-- Embedding of `process_helpers._detect_running_log` (the `or` between
the two `pgrep` calls short-circuits as in Python). -/
def _detect_running_log (env : Env) (cfg : Config) : Except PyErr String := do
  let p1 ← pgrep env "python3 -m pip"
  let anyBuild ←
    if p1.isEmpty then do
      let p2 ← pgrep env "cmake --build"
      pure (!p2.isEmpty)
    else pure true
  if anyBuild then
    pure (_find_latest_log env
      [cfg.log_files.build_py, cfg.log_files.rebuild,
       cfg.log_files.build_all, cfg.log_files.build_cpp])
  else
    pure ""

/-- Embedding of `process_helpers.check_task_running` (the Task Guard):
0/clear with no output when the pattern matches nothing; otherwise the
conflict diagnostic (task, full PID list, detected log, view hint, kill
hint falling back to `kill <oldest pid>`) and 1/conflict. -/
def check_task_running (env : Env) (cfg : Config)
    (pattern task_name log_file view_cmd kill_cmd : String) :
    Except PyErr (List Effect × Nat) := do
  let pids ← pgrep env pattern
  match pids with
  | [] => pure ([], 0)
  | oldest :: rest =>
    let running_log ←
      if log_file = "" then _detect_running_log env cfg else pure log_file
    let view_command :=
      if view_cmd = "" ∧ running_log ≠ "" then _get_view_command cfg running_log
      else view_cmd
    let kill_display := if kill_cmd ≠ "" then kill_cmd else "kill " ++ oldest
    let effs :=
      [Effect.print Msg.taskAlreadyRunning,
       Effect.print (Msg.taskLine task_name),
       Effect.print (Msg.conflictPids (oldest :: rest))]
      ++ (if running_log ≠ "" then [Effect.print (Msg.conflictLog running_log)] else [])
      ++ (if view_command ≠ "" then [Effect.print (Msg.conflictView view_command)] else [])
      ++ [Effect.print (Msg.conflictKill kill_display)]
    pure (effs, 1)

/-- `test_patterns` table inside `process_helpers.show_processes`
(pattern, display name, command stub). -/
def test_patterns : List (String × String × String) :=
  [("qa/L0_cppunittest/test.sh", "L0 CPP Test", "te -0 -c"),
   ("qa/L0_pytorch_unittest/test.sh", "L0 Torch Test", "te -0 -t"),
   ("qa/L1_pytorch_distributed_unittest/test.sh", "L1 Torch Test", "te -1 -t")]

/-- Embedding of `process_helpers._print_build_task`. -/
def _print_build_task (cfg : Config) (pids : List String) (latest_log : String) :
    List Effect :=
  let view_cmd := _get_view_command cfg latest_log
  [Effect.print Msg.buildTaskHeader,
   Effect.print (Msg.pidsLine pids),
   Effect.print (Msg.viewLine view_cmd),
   Effect.print (Msg.killLine "te -b -k"),
   Effect.print Msg.blank]

/-- Embedding of `process_helpers._print_test_task` (`cmd_stub` is the
source's `cmd_prefix` parameter). -/
def _print_test_task (pids : List String) (name cmd_stub : String) : List Effect :=
  [Effect.print (Msg.testTaskHeader name),
   Effect.print (Msg.pidsLine pids),
   Effect.print (Msg.viewLine (cmd_stub ++ " -l")),
   Effect.print (Msg.killLine (cmd_stub ++ " -k")),
   Effect.print Msg.blank]

/-- Embedding of `process_helpers.show_processes` (the Task Enumerator):
header, then the build group, then each test category, then the
"no running tasks" notice when nothing matched; always returns 0. -/
def show_processes (env : Env) (cfg : Config) : Except PyErr (List Effect × Nat) := do
  let header := [Effect.print Msg.runningTasksHeader, Effect.print Msg.blank]
  let build_pids ← pgrep env "python3 -m pip|cmake --build"
  let buildPart :=
    if build_pids.isEmpty then ([] : List Effect)
    else
      let latest_log := _find_latest_log env
        [cfg.log_files.build_py, cfg.log_files.build_cpp,
         cfg.log_files.rebuild, cfg.log_files.build_all]
      _print_build_task cfg build_pids latest_log
  let acc0 : List Effect × Bool := ([], !build_pids.isEmpty)
  let acc ← test_patterns.foldlM (fun (acc : List Effect × Bool) tp => do
      let pids ← pgrep env tp.1
      if pids.isEmpty then pure acc
      else pure (acc.1 ++ _print_test_task pids tp.2.1 tp.2.2, true)) acc0
  let tailPart := if acc.2 then ([] : List Effect) else [Effect.print Msg.noRunningTasks]
  pure (header ++ buildPart ++ acc.1 ++ tailPart, 0)

/-- Embedding of `process_helpers._kill_task_logic` (the Task
Terminator's confirmed path): shows the oldest PID's start/elapsed time
and the full PID list, reads one line; a stripped `y`/`Y` sends
`pkill(pattern)` — source default signal `-9` — sleeps 1 s and returns 0;
anything else (including `EOFError`) cancels with 1 and no signal.
`pids[0]` on an empty list raises `IndexError`. -/
def _kill_task_logic (env : Env) (pids : List String) (pattern task_name : String) :
    Except PyErr (List Effect × Nat) :=
  match pids with
  | [] => .error .indexError
  | oldest_pid :: rest =>
    let start_time := get_process_start_time env oldest_pid
    let elapsed := get_process_elapsed env oldest_pid
    let effs :=
      [Effect.print (Msg.taskRunningWarn task_name),
       Effect.print (Msg.killPids (oldest_pid :: rest)),
       Effect.print (Msg.startedLine start_time),
       Effect.print (Msg.elapsedLine elapsed),
       Effect.print Msg.blank,
       Effect.readLine]
    let choice := readChoice env
    if pyStrip choice = "y" ∨ pyStrip choice = "Y" then
      let pk := pkill env pattern "-9"
      .ok (effs ++ pk.1 ++ [Effect.sleepSec 1, Effect.print (Msg.killedMsg task_name)], 0)
    else
      .ok (effs ++ [Effect.print Msg.cancelledInfo], 1)

/-- Detection pattern of `process_helpers.kill_build_task`. -/
def buildDetectPattern : String := "python3 -m pip|cmake --build"

/-- Broadened kill pattern of `process_helpers.kill_build_task`. -/
def buildKillPattern : String := "python3 -m pip|cmake --build|bash -c.*pip"

/-- Embedding of `process_helpers.kill_build_task`: warns and returns 0
when nothing matches; otherwise runs the terminator with the broader kill
pattern. -/
def kill_build_task (env : Env) : Except PyErr (List Effect × Nat) := do
  let pids ← pgrep env buildDetectPattern
  match pids with
  | [] => pure ([Effect.print Msg.noBuildTask], 0)
  | _ => _kill_task_logic env pids buildKillPattern "Build task"

/-- Embedding of `process_helpers.kill_test_task`: warns and returns 0
when nothing matches; otherwise runs the terminator with the same
pattern. -/
def kill_test_task (env : Env) (pattern task_name : String) :
    Except PyErr (List Effect × Nat) := do
  let pids ← pgrep env pattern
  match pids with
  | [] => pure ([Effect.print (Msg.noTestTask task_name)], 0)
  | _ => _kill_task_logic env pids pattern task_name

/-- Embedding of `build_helpers._start_background_script` (the Job
Launcher): truncate-open the log, spawn `nohup bash -c script` detached
(`start_new_session=True`) with stdout to the log and stderr merged, print
the success and log lines, return 0.  No wait on the child occurs.
`log_mark` is the source's `log_prefix` parameter (default `"└─"`,
passed explicitly by the callers below). -/
def _start_background_script (log_file script success_message log_mark : String) :
    List Effect × Nat :=
  ([Effect.openTruncWrite log_file,
    Effect.spawnDetached ["nohup", "bash", "-c", script] log_file true none true,
    Effect.print (Msg.successMsg success_message),
    Effect.print (Msg.logLine log_mark log_file)], 0)

/-- Embedding of `build_helpers._common_build_check`: Task Guard first,
then Log Overwrite Guard; either failure yields 1. -/
def _common_build_check (env : Env) (cfg : Config)
    (log_file task_name pattern : String) : Except PyErr (List Effect × Nat) := do
  let c ← check_task_running env cfg pattern task_name "" "" "te -b -k"
  if c.2 ≠ 0 then pure (c.1, 1)
  else
    let o := confirm_if_log_exists env log_file
    if o.2 ≠ 0 then pure (c.1 ++ o.1, 1)
    else pure (c.1 ++ o.1, 0)

/-- Embedding of `build_helpers.build_te_func` (clean Python build, a
representative build start): common check, then launch the generated
clean-build script into the python build log. -/
def build_te_func (env : Env) (cfg : Config) : Except PyErr (List Effect × Nat) := do
  let c ← _common_build_check env cfg cfg.log_files.build_py "Python Build" "python3 -m pip"
  if c.2 ≠ 0 then pure (c.1, 1)
  else
    let s := _start_background_script cfg.log_files.build_py (cfg.pyBuildScript true)
      "Python Clean Build Started (Background)" "└─"
    pure (c.1 ++ s.1, s.2)

/-- Embedding of `build_helpers.rebuild_dev`: with `config.te_path` falsy
(empty) prints an error and returns 1; otherwise common check, then
launch of the rebuild script. -/
def rebuild_dev (env : Env) (cfg : Config) (args : List String) :
    Except PyErr (List Effect × Nat) := do
  if cfg.te_path = "" then
    pure ([Effect.print Msg.errorTePath], 1)
  else
    let c ← _common_build_check env cfg cfg.log_files.rebuild "Rebuild"
      "python3 -m pip|cmake --build"
    if c.2 ≠ 0 then pure (c.1, 1)
    else
      let s := _start_background_script cfg.log_files.rebuild (cfg.rebuildScript args)
        "Rebuild Started (Background)" "├─"
      pure (c.1 ++ s.1, s.2)

/-- Embedding of `test_helpers._start_test`: Task Guard, then Log
Overwrite Guard, then the `te_path`-parent existence precondition
(status 2), then truncate-open the log and spawn the script detached with
merged output in that parent directory, returning 0 without waiting. -/
def _start_test (env : Env) (cfg : Config)
    (log_file pattern task_name view_cmd kill_cmd script success_message : String) :
    Except PyErr (List Effect × Nat) := do
  let c ← check_task_running env cfg pattern task_name log_file view_cmd kill_cmd
  if c.2 ≠ 0 then pure (c.1, 1)
  else
    let o := confirm_if_log_exists env log_file
    if o.2 ≠ 0 then pure (c.1 ++ o.1, 1)
    else
      let parent_dir := env.resolveParent cfg.te_path
      if env.isDir parent_dir = false then pure (c.1 ++ o.1, 2)
      else
        let effs :=
          [Effect.openTruncWrite log_file,
           Effect.spawnDetached ["nohup", "bash", "-c", script] log_file true
             (some parent_dir) true,
           Effect.print (Msg.successMsg success_message),
           Effect.print (Msg.logLine "└─" log_file)]
        pure (c.1 ++ o.1 ++ effs, 0)

/-- An effect belonging to the Job Launcher step: a log-file
open/truncate or a process spawn. -/
def isLaunchEffect : Effect → Bool
  | Effect.openTruncWrite _ => true
  | Effect.spawnDetached _ _ _ _ _ => true
  | _ => false

/-- The external process-enumeration tool is present (its absence is the
uncaught `FileNotFoundError` case). -/
def EnvToolOk (env : Env) : Prop :=
  ∀ p, env.pgrepRun p ≠ RunOutcome.toolMissing

/-! ### Concrete fixtures used by witnesses and counterexamples -/

/-- Concrete configuration mirroring `Config.log_files` under the default
`te_path`. -/
def cfg0 : Config where
  te_path := "/workspace/TransformerEngine"
  log_files :=
    { build_py := "/workspace/TransformerEngine/build_python.log"
      build_cpp := "/workspace/TransformerEngine/build_cpp.log"
      rebuild := "/workspace/TransformerEngine/rebuild_dev.log"
      build_all := "/workspace/TransformerEngine/build_all.log"
      l0cpp := "/workspace/TransformerEngine/L0_cppunittest_kme.log"
      l0torch := "/workspace/TransformerEngine/L0_pytorch_unittest_kme.log"
      l1torch := "/workspace/TransformerEngine/L1_pytorch_distributed_unittest_kme.log" }
  pyBuildScript := fun _ => "py-build-script"
  rebuildScript := fun _ => "rebuild-script"

/-- Configuration whose `te_path` is unset (empty, i.e. falsy). -/
def cfgNoTePath : Config := { cfg0 with te_path := "" }

/-- Base environment: no files, directories present, the pgrep tool
present but matching nothing (exit 1), console at end of input. -/
def baseEnv : Env where
  fs := fun _ => none
  isDir := fun _ => true
  resolveParent := fun _ => "/workspace"
  pgrepRun := fun _ => RunOutcome.completed 1 ""
  pkillOk := fun _ => true
  psStart := fun _ => some "Mon Jan 15 10:30:00 2024"
  psElapsed := fun _ => some "00:05:30"
  duOut := fun _ => some "4.0K file"
  stdinLine := none

/-- Environment where the pgrep executable is absent. -/
def envToolMissing : Env := { baseEnv with pgrepRun := fun _ => RunOutcome.toolMissing }

/-! ### Helper lemmas -/

/-- When the enumeration tool is present, `pgrep` cannot raise. -/
theorem pgrep_ok_of_toolOk (env : Env) (p : String) (htool : EnvToolOk env) :
    ∃ l, pgrep env p = Except.ok l := by
  unfold pgrep
  cases hr : env.pgrepRun p with
  | completed c out =>
    cases c with
    | zero => exact ⟨splitPids out, rfl⟩
    | succ n => exact ⟨[], rfl⟩
  | toolMissing => exact absurd hr (htool p)

/-- When the enumeration tool is present, `_detect_running_log` cannot
raise. -/
theorem detect_running_log_ok (env : Env) (cfg : Config) (htool : EnvToolOk env) :
    ∃ s, _detect_running_log env cfg = Except.ok s := by
  obtain ⟨l1, h1⟩ := pgrep_ok_of_toolOk env "python3 -m pip" htool
  obtain ⟨l2, h2⟩ := pgrep_ok_of_toolOk env "cmake --build" htool
  unfold _detect_running_log
  rw [h1]
  simp only [Bind.bind, Except.bind, h2, pure, Except.pure]
  split
  all_goals try split
  all_goals exact ⟨_, rfl⟩

/-! ### Claim theorems -/

/-- C3 counterexample: when the enumeration tool's executable is absent,
`pgrep` does not return an empty list; the `FileNotFoundError` escapes
(only `CalledProcessError` is caught), so the failure does not fail open. -/
theorem findProcesses_missing_tool_raises :
    pgrep envToolMissing "sleep" = Except.error PyErr.fileNotFound ∧
    pgrep envToolMissing "sleep" ≠ Except.ok [] :=
  ⟨rfl, by simp [pgrep, envToolMissing]⟩

/-- C3 amended: `pgrep` fails open (returns `[]`) exactly for a tool run
that exits nonzero — which covers "pattern matches nothing" — while a
missing enumeration tool raises `FileNotFoundError` to the caller; the
call passes no timeout, so no timeout condition exists. -/
theorem findProcesses_failure_modes (env : Env) (p : String) :
    (∀ out, env.pgrepRun p = RunOutcome.completed 0 out →
      pgrep env p = Except.ok (splitPids out)) ∧
    (∀ c out, env.pgrepRun p = RunOutcome.completed c out → c ≠ 0 →
      pgrep env p = Except.ok []) ∧
    (env.pgrepRun p = RunOutcome.toolMissing →
      pgrep env p = Except.error PyErr.fileNotFound) := by
  refine ⟨?_, ?_, ?_⟩
  · intro out h; simp [pgrep, h]
  · intro c out h hc
    cases c with
    | zero => exact absurd rfl hc
    | succ n => simp [pgrep, h]
  · intro h; simp [pgrep, h]

/-- C3 witness for `findProcesses_failure_modes` at a concrete
environment. -/
theorem findProcesses_failure_modes_witness :
    pgrep baseEnv "sleep" = Except.ok [] :=
  (findProcesses_failure_modes baseEnv "sleep").2.1 1 "" rfl (by simp)

/-- C9 counterexample: `rebuild_dev` with `te_path` unset — an absent
required path — returns status 1, not the claimed 2. -/
theorem rebuild_missing_te_path_returns_one :
    rebuild_dev baseEnv cfgNoTePath [] =
      Except.ok ([Effect.print Msg.errorTePath], 1) := rfl

/-- C1: the Task Guard (`check_task_running`) returns clear (0) with no
diagnostic when the Process Query Service finds no live process matching
the pattern, and conflict (1) otherwise, with the diagnostic's (unique)
PID line carrying exactly the service's match list — which `pgrep -f`
reports ascending by PID, i.e. oldest-first. -/
theorem checkAndReport_clear_or_conflict (env : Env) (cfg : Config)
    (pattern task_name log_file view_cmd kill_cmd : String) (pids : List String)
    (htool : EnvToolOk env) (h : pgrep env pattern = Except.ok pids) :
    (pids = [] →
      check_task_running env cfg pattern task_name log_file view_cmd kill_cmd =
        Except.ok ([], 0)) ∧
    (pids ≠ [] → ∃ effs,
      check_task_running env cfg pattern task_name log_file view_cmd kill_cmd =
        Except.ok (effs, 1) ∧
      Effect.print (Msg.conflictPids pids) ∈ effs ∧
      ∀ l, Effect.print (Msg.conflictPids l) ∈ effs → l = pids) := by
  constructor
  · intro hnil
    subst hnil
    unfold check_task_running
    rw [h]
    rfl
  · intro hne
    obtain ⟨dlog, hd⟩ := detect_running_log_ok env cfg htool
    unfold check_task_running
    rw [h]
    cases pids with
    | nil => exact absurd rfl hne
    | cons oldest rest =>
      by_cases hlf : log_file = ""
      · simp only [Bind.bind, Except.bind, hlf, if_true, hd, pure, Except.pure]
        refine ⟨_, rfl, by simp, ?_⟩
        intro l hmem
        simp only [List.mem_append, List.mem_cons, List.not_mem_nil] at hmem
        split_ifs at hmem <;> simp_all
      · simp only [Bind.bind, Except.bind, hlf, if_false, pure, Except.pure]
        refine ⟨_, rfl, by simp, ?_⟩
        intro l hmem
        simp only [List.mem_append, List.mem_cons, List.not_mem_nil] at hmem
        split_ifs at hmem <;> simp_all

/-- Environment for the C1 witness: two processes match `sleep 10`,
nothing else matches. -/
def envC1 : Env := { baseEnv with
  pgrepRun := fun p =>
    if p = "sleep 10" then RunOutcome.completed 0 "4242\n4243\n"
    else RunOutcome.completed 1 "" }

/-- C1 witness: `checkAndReport_clear_or_conflict` at `envC1`. -/
theorem checkAndReport_witness :
    check_task_running envC1 cfg0 "nomatch" "Demo" "L" "" "" = Except.ok ([], 0) ∧
    ∃ effs, check_task_running envC1 cfg0 "sleep 10" "Demo" "L" "" "" =
        Except.ok (effs, 1) ∧
      Effect.print (Msg.conflictPids ["4242", "4243"]) ∈ effs ∧
      ∀ l, Effect.print (Msg.conflictPids l) ∈ effs → l = ["4242", "4243"] := by
  constructor
  · exact (checkAndReport_clear_or_conflict envC1 cfg0 "nomatch" "Demo" "L" "" "" []
      (fun p => by simp only [envC1]; split <;> simp) rfl).1 rfl
  · exact (checkAndReport_clear_or_conflict envC1 cfg0 "sleep 10" "Demo" "L" "" ""
      ["4242", "4243"]
      (fun p => by simp only [envC1]; split <;> simp) rfl).2 (by simp)

/-- Environment for the C2 counterexample: one non-empty log file, console
input `" y "`. -/
def envC2 : Env := { baseEnv with
  fs := fun p => if p = "/tmp/x.log" then some ⟨1024, 7⟩ else none,
  stdinLine := some " y " }

/-- C2 counterexample: on an existing non-empty log, the captured input
`" y "` — which is not exactly `y` or `Y` — still yields proceed (0): the
source strips surrounding whitespace before comparing. -/
theorem confirmOverwrite_strips_input :
    envC2.fs "/tmp/x.log" = some ⟨1024, 7⟩ ∧
    envC2.stdinLine = some " y " ∧ " y " ≠ "y" ∧ " y " ≠ "Y" ∧
    (confirm_if_log_exists envC2 "/tmp/x.log").2 = 0 :=
  ⟨rfl, rfl, by decide, by decide, rfl⟩

/-- C2 amended: `confirm_if_log_exists` returns proceed (0) with no
effects at all — in particular without reading input — when the path is
missing or has size zero; on a non-empty file it reads one line of input
and proceeds iff that line stripped of surrounding whitespace is `y` or
`Y`, returning cancel (1) otherwise; end-of-input reads as `""` and
therefore cancels. -/
theorem confirmOverwrite_spec (env : Env) (path : String) :
    ((env.fs path = none ∨ ∃ i, env.fs path = some i ∧ i.size = 0) →
      confirm_if_log_exists env path = ([], 0)) ∧
    (∀ i, env.fs path = some i → 0 < i.size →
      Effect.readLine ∈ (confirm_if_log_exists env path).1 ∧
      ((confirm_if_log_exists env path).2 = 0 ↔
        pyStrip (readChoice env) = "y" ∨ pyStrip (readChoice env) = "Y") ∧
      ((confirm_if_log_exists env path).2 = 0 ∨
        (confirm_if_log_exists env path).2 = 1)) := by
  constructor
  · rintro (hn | ⟨i, hi, hz⟩)
    · simp [confirm_if_log_exists, hn]
    · simp [confirm_if_log_exists, hi, hz]
  · intro i hi hpos
    unfold confirm_if_log_exists
    rw [hi]
    by_cases hy : pyStrip (readChoice env) = "y" ∨ pyStrip (readChoice env) = "Y"
    · simp [hpos, hy]
    · simp [hpos, hy]

/-- C2 witness: `confirmOverwrite_spec` at concrete environments (missing
file; non-empty file with whitespace-padded `y`). -/
theorem confirmOverwrite_spec_witness :
    confirm_if_log_exists baseEnv "/tmp/x.log" = ([], 0) ∧
    Effect.readLine ∈ (confirm_if_log_exists envC2 "/tmp/x.log").1 ∧
    (confirm_if_log_exists envC2 "/tmp/x.log").2 = 0 :=
  ⟨(confirmOverwrite_spec baseEnv "/tmp/x.log").1 (Or.inl rfl),
   ((confirmOverwrite_spec envC2 "/tmp/x.log").2 ⟨1024, 7⟩ rfl (by decide)).1,
   (((confirmOverwrite_spec envC2 "/tmp/x.log").2 ⟨1024, 7⟩ rfl (by decide)).2.1).mpr
     (Or.inl (by decide))⟩

/-- Environment for the C5 counterexample: console input `" y "`. -/
def envC5 : Env := { baseEnv with stdinLine := some " y " }

/-- C5 counterexample: with confirmation input `" y "` — not `y` or `Y` —
the terminator still kills (sends the signal and returns 0), because the
source strips surrounding whitespace before comparing. -/
theorem terminate_strips_input :
    envC5.stdinLine = some " y " ∧ " y " ≠ "y" ∧ " y " ≠ "Y" ∧
    ∃ effs, _kill_task_logic envC5 ["1234"] "pat" "Demo" = Except.ok (effs, 0) ∧
      Effect.pkillCmd "-9" "pat" ∈ effs :=
  ⟨rfl, by decide, by decide, _, rfl, by decide⟩

/-- C5 amended: on a nonempty match list the terminator displays the
oldest (first-listed) PID's start and elapsed time together with the full
PID list, reads one confirmation line; iff the line stripped of
surrounding whitespace is `y` or `Y` it sends the termination signal via
`pkill` on the kill pattern (targeting every process matching it), sleeps
the fixed 1-second verification interval and returns killed (0);
otherwise — including end-of-input — it returns cancelled (1) with no
signal sent. -/
theorem terminate_confirmed_path (env : Env) (pattern task_name : String)
    (oldest : String) (rest : List String) :
    ∃ effs code,
      _kill_task_logic env (oldest :: rest) pattern task_name = Except.ok (effs, code) ∧
      Effect.print (Msg.startedLine (get_process_start_time env oldest)) ∈ effs ∧
      Effect.print (Msg.elapsedLine (get_process_elapsed env oldest)) ∈ effs ∧
      Effect.print (Msg.killPids (oldest :: rest)) ∈ effs ∧
      Effect.readLine ∈ effs ∧
      ((pyStrip (readChoice env) = "y" ∨ pyStrip (readChoice env) = "Y") →
        code = 0 ∧ Effect.pkillCmd "-9" pattern ∈ effs ∧ Effect.sleepSec 1 ∈ effs) ∧
      (¬(pyStrip (readChoice env) = "y" ∨ pyStrip (readChoice env) = "Y") →
        code = 1 ∧ ∀ s q, Effect.pkillCmd s q ∉ effs) := by
  by_cases hy : pyStrip (readChoice env) = "y" ∨ pyStrip (readChoice env) = "Y"
  · have hrun : _kill_task_logic env (oldest :: rest) pattern task_name =
        Except.ok ([Effect.print (Msg.taskRunningWarn task_name),
          Effect.print (Msg.killPids (oldest :: rest)),
          Effect.print (Msg.startedLine (get_process_start_time env oldest)),
          Effect.print (Msg.elapsedLine (get_process_elapsed env oldest)),
          Effect.print Msg.blank, Effect.readLine]
          ++ [Effect.pkillCmd "-9" pattern]
          ++ [Effect.sleepSec 1, Effect.print (Msg.killedMsg task_name)], 0) := by
      simp only [_kill_task_logic, pkill, if_pos hy]
    refine ⟨_, _, hrun, by simp, by simp, by simp, by simp, ?_, ?_⟩
    · intro _; exact ⟨rfl, by simp, by simp⟩
    · intro hcontra; exact (hcontra hy).elim
  · have hrun : _kill_task_logic env (oldest :: rest) pattern task_name =
        Except.ok ([Effect.print (Msg.taskRunningWarn task_name),
          Effect.print (Msg.killPids (oldest :: rest)),
          Effect.print (Msg.startedLine (get_process_start_time env oldest)),
          Effect.print (Msg.elapsedLine (get_process_elapsed env oldest)),
          Effect.print Msg.blank, Effect.readLine]
          ++ [Effect.print Msg.cancelledInfo], 1) := by
      simp only [_kill_task_logic, pkill, if_neg hy]
    refine ⟨_, _, hrun, by simp, by simp, by simp, by simp, ?_, ?_⟩
    · intro hcontra; exact (hy hcontra).elim
    · intro _
      refine ⟨rfl, ?_⟩
      intro s q hmem
      simp at hmem

/-- Environment for the C6 counterexample: one process matches the L0 CPP
test pattern, input confirms. -/
def envC6 : Env := { baseEnv with
  pgrepRun := fun p =>
    if p = "qa/L0_cppunittest/test.sh" then RunOutcome.completed 0 "77\n"
    else RunOutcome.completed 1 "",
  stdinLine := some "y" }

/-- C6 counterexample: a confirmed kill of a generic test task sends
`pkill` signal `-9` (SIGKILL — immediate and non-catchable), not a milder
catchable termination signal: the run's only pkill effect carries `-9`. -/
theorem testKill_uses_sigkill :
    ∃ effs, kill_test_task envC6 "qa/L0_cppunittest/test.sh" "L0 CPP Test" =
        Except.ok (effs, 0) ∧
      Effect.pkillCmd "-9" "qa/L0_cppunittest/test.sh" ∈ effs ∧
      ∀ s q, Effect.pkillCmd s q ∈ effs → s = "-9" := by
  refine ⟨_, rfl, by decide, ?_⟩
  intro s q hmem
  simp only [pkill, List.mem_append, List.mem_cons, List.not_mem_nil] at hmem
  rcases hmem with h | h <;> simp_all

/-- C6 amended: build-category and test-category kills are routed through
the same confirmation flow (`_kill_task_logic`) — the build kill merely
broadening the pattern — and on confirmation both send `pkill` signal
`-9` (SIGKILL), the source's default; no milder signal is used anywhere. -/
theorem termination_signals (env : Env) (pattern task_name : String) :
    (∀ pids, pgrep env buildDetectPattern = Except.ok pids → pids ≠ [] →
      kill_build_task env = _kill_task_logic env pids buildKillPattern "Build task") ∧
    (∀ pids, pgrep env pattern = Except.ok pids → pids ≠ [] →
      kill_test_task env pattern task_name =
        _kill_task_logic env pids pattern task_name) ∧
    (∀ pids pat name effs code,
      _kill_task_logic env pids pat name = Except.ok (effs, code) →
      ∀ s q, Effect.pkillCmd s q ∈ effs → s = "-9" ∧ q = pat) := by
  refine ⟨?_, ?_, ?_⟩
  · intro pids h hne
    unfold kill_build_task
    rw [h]
    cases pids with
    | nil => exact absurd rfl hne
    | cons o r => rfl
  · intro pids h hne
    unfold kill_test_task
    rw [h]
    cases pids with
    | nil => exact absurd rfl hne
    | cons o r => rfl
  · intro pids pat name effs code hrun s q hmem
    cases pids with
    | nil => exact absurd hrun (by simp [_kill_task_logic])
    | cons o r =>
      simp only [_kill_task_logic, pkill] at hrun
      split at hrun
      · cases hrun
        simp at hmem
        exact hmem
      · cases hrun
        simp at hmem

/-- C10: when no process matches, both `kill_build_task` and
`kill_test_task` print a warning and return 0 — the same status a
confirmed kill returns — so the exit code alone cannot distinguish
"nothing to kill" from "killed"; only a declined (or absent)
confirmation yields 1, with no signal sent. -/
theorem terminate_noTask_status (env : Env) (pattern task_name : String)
    (hb : pgrep env buildDetectPattern = Except.ok [])
    (ht : pgrep env pattern = Except.ok []) :
    kill_build_task env = Except.ok ([Effect.print Msg.noBuildTask], 0) ∧
    kill_test_task env pattern task_name =
      Except.ok ([Effect.print (Msg.noTestTask task_name)], 0) ∧
    (∀ pids pat name, pids ≠ [] →
      ¬(pyStrip (readChoice env) = "y" ∨ pyStrip (readChoice env) = "Y") →
      ∃ effs, _kill_task_logic env pids pat name = Except.ok (effs, 1) ∧
        ∀ s q, Effect.pkillCmd s q ∉ effs) ∧
    (∀ pids pat name, pids ≠ [] →
      (pyStrip (readChoice env) = "y" ∨ pyStrip (readChoice env) = "Y") →
      ∃ effs, _kill_task_logic env pids pat name = Except.ok (effs, 0)) := by
  refine ⟨?_, ?_, ?_, ?_⟩
  · unfold kill_build_task
    rw [hb]
    rfl
  · unfold kill_test_task
    rw [ht]
    rfl
  · intro pids pat name hne hy
    cases pids with
    | nil => exact absurd rfl hne
    | cons o r =>
      simp only [_kill_task_logic, if_neg hy]
      refine ⟨_, rfl, ?_⟩
      intro s q hmem
      simp at hmem
  · intro pids pat name hne hy
    cases pids with
    | nil => exact absurd rfl hne
    | cons o r =>
      simp only [_kill_task_logic, pkill, if_pos hy]
      exact ⟨_, rfl⟩

/-- C10 witness: `terminate_noTask_status` at `baseEnv` (nothing matches,
console at end of input). -/
theorem terminate_noTask_status_witness :
    kill_build_task baseEnv = Except.ok ([Effect.print Msg.noBuildTask], 0) ∧
    ∃ effs, _kill_task_logic baseEnv ["9"] "p" "T" = Except.ok (effs, 1) ∧
      ∀ s q, Effect.pkillCmd s q ∉ effs :=
  ⟨(terminate_noTask_status baseEnv "p" "T" rfl rfl).1,
   (terminate_noTask_status baseEnv "p" "T" rfl rfl).2.2.1 ["9"] "p" "T"
     (by decide) (by decide)⟩

/-- C8 counterexample: with nothing matching any category,
`show_processes` prints — beyond the header and a blank line — the
"No running tasks found." notice, i.e. an output line beyond a header. -/
theorem listRunning_empty_prints_notice :
    show_processes baseEnv cfg0 =
      Except.ok ([Effect.print Msg.runningTasksHeader, Effect.print Msg.blank,
        Effect.print Msg.noRunningTasks], 0) ∧
    Effect.print Msg.noRunningTasks ≠ Effect.print Msg.runningTasksHeader ∧
    Effect.print Msg.noRunningTasks ≠ Effect.print Msg.blank :=
  ⟨rfl, by decide, by decide⟩

/-- C8 amended: when no live process matches the build group or any
registered test category, `show_processes` returns status 0 — never an
error — and prints no per-task entries: only the header, a blank line,
and the "No running tasks found." notice. -/
theorem listRunning_empty (env : Env) (cfg : Config)
    (h1 : pgrep env "python3 -m pip|cmake --build" = Except.ok [])
    (h2 : pgrep env "qa/L0_cppunittest/test.sh" = Except.ok [])
    (h3 : pgrep env "qa/L0_pytorch_unittest/test.sh" = Except.ok [])
    (h4 : pgrep env "qa/L1_pytorch_distributed_unittest/test.sh" = Except.ok []) :
    show_processes env cfg =
      Except.ok ([Effect.print Msg.runningTasksHeader, Effect.print Msg.blank,
        Effect.print Msg.noRunningTasks], 0) := by
  unfold show_processes test_patterns
  rw [h1]
  simp only [Bind.bind, Except.bind, List.foldlM, h2, h3, h4, pure, Except.pure,
    List.isEmpty_nil, if_true, List.append_nil, List.nil_append]
  rfl

/-- C8 witness: `listRunning_empty` at `baseEnv`. -/
theorem listRunning_empty_witness :
    show_processes baseEnv cfg0 =
      Except.ok ([Effect.print Msg.runningTasksHeader, Effect.print Msg.blank,
        Effect.print Msg.noRunningTasks], 0) :=
  listRunning_empty baseEnv cfg0 rfl rfl rfl rfl

/-- Is an effect a console print? -/
def isPrint : Effect → Bool
  | Effect.print _ => true
  | _ => false

/-- An all-prints effect list contains no read and no launch effect. -/
theorem no_read_no_launch_of_all_isPrint (effs : List Effect)
    (hall : effs.all isPrint = true) :
    Effect.readLine ∉ effs ∧ ∀ e ∈ effs, isLaunchEffect e = false := by
  rw [List.all_eq_true] at hall
  constructor
  · intro hmem
    have := hall _ hmem
    simp [isPrint] at this
  · intro e he
    have := hall e he
    cases e <;> simp_all [isPrint, isLaunchEffect]

/-- The Task Guard's clear case: no matches, status 0, no effects. -/
theorem check_clear_eq (env : Env) (cfg : Config)
    (pattern task_name log_file view_cmd kill_cmd : String)
    (h : pgrep env pattern = Except.ok []) :
    check_task_running env cfg pattern task_name log_file view_cmd kill_cmd =
      Except.ok ([], 0) := by
  unfold check_task_running
  rw [h]
  rfl

/-- The Task Guard's conflict diagnostic consists solely of prints. -/
theorem check_conflict_all_prints (env : Env) (cfg : Config)
    (pattern task_name log_file view_cmd kill_cmd oldest : String)
    (rest : List String) (htool : EnvToolOk env)
    (h : pgrep env pattern = Except.ok (oldest :: rest)) :
    ∃ effs, check_task_running env cfg pattern task_name log_file view_cmd kill_cmd =
      Except.ok (effs, 1) ∧ effs.all isPrint = true := by
  obtain ⟨dlog, hd⟩ := detect_running_log_ok env cfg htool
  unfold check_task_running
  rw [h]
  by_cases hlf : log_file = ""
  · simp only [Bind.bind, Except.bind, hlf, if_true, hd, pure, Except.pure]
    refine ⟨_, rfl, ?_⟩
    split_ifs <;> rfl
  · simp only [Bind.bind, Except.bind, hlf, if_false, pure, Except.pure]
    refine ⟨_, rfl, ?_⟩
    split_ifs <;> rfl

/-- The Log Overwrite Guard's cancel case, with its effect list. -/
theorem confirm_cancel_eq (env : Env) (path : String) (i : FileInfo)
    (hi : env.fs path = some i) (hpos : 0 < i.size)
    (hn : ¬(pyStrip (readChoice env) = "y" ∨ pyStrip (readChoice env) = "Y")) :
    confirm_if_log_exists env path =
      ([Effect.print Msg.logExistsWarn, Effect.print (Msg.logPathLine path),
        Effect.print (Msg.logSizeLine (get_human_size env path)), Effect.readLine]
        ++ [Effect.print Msg.canceledByUser], 1) := by
  unfold confirm_if_log_exists
  rw [hi]
  simp only [if_pos hpos, if_neg hn]

/-- C7: in every start operation the Task Guard runs before the Log
Overwrite Guard, which runs before the Job Launcher: a guard conflict
aborts with status 1 before any confirmation input is read and with no
log open/truncate and no spawn; an overwrite-guard cancel aborts with
status 1 after reading the confirmation, again with no log open/truncate
and no spawn.  Stated for the common test start `_start_test` and the
representative build start `build_te_func`. -/
theorem start_operation_guard_ordering (env : Env) (cfg : Config)
    (log_file pattern task_name view_cmd kill_cmd script success_message : String)
    (pids bpids : List String) (htool : EnvToolOk env)
    (h : pgrep env pattern = Except.ok pids)
    (hb : pgrep env "python3 -m pip" = Except.ok bpids) :
    (pids ≠ [] → ∃ effs,
      _start_test env cfg log_file pattern task_name view_cmd kill_cmd script
          success_message = Except.ok (effs, 1) ∧
      Effect.readLine ∉ effs ∧ ∀ e ∈ effs, isLaunchEffect e = false) ∧
    (pids = [] → ∀ i, env.fs log_file = some i → 0 < i.size →
      ¬(pyStrip (readChoice env) = "y" ∨ pyStrip (readChoice env) = "Y") →
      ∃ effs,
        _start_test env cfg log_file pattern task_name view_cmd kill_cmd script
            success_message = Except.ok (effs, 1) ∧
        Effect.readLine ∈ effs ∧ ∀ e ∈ effs, isLaunchEffect e = false) ∧
    (bpids ≠ [] → ∃ effs, build_te_func env cfg = Except.ok (effs, 1) ∧
      Effect.readLine ∉ effs ∧ ∀ e ∈ effs, isLaunchEffect e = false) ∧
    (bpids = [] → ∀ i, env.fs cfg.log_files.build_py = some i → 0 < i.size →
      ¬(pyStrip (readChoice env) = "y" ∨ pyStrip (readChoice env) = "Y") →
      ∃ effs, build_te_func env cfg = Except.ok (effs, 1) ∧
        Effect.readLine ∈ effs ∧ ∀ e ∈ effs, isLaunchEffect e = false) := by
  refine ⟨?_, ?_, ?_, ?_⟩
  · intro hne
    obtain ⟨o, r, rfl⟩ : ∃ o r, pids = o :: r := by
      cases pids with
      | nil => exact absurd rfl hne
      | cons o r => exact ⟨o, r, rfl⟩
    obtain ⟨effs, heq, hall⟩ := check_conflict_all_prints env cfg pattern task_name
      log_file view_cmd kill_cmd o r htool h
    obtain ⟨hread, hlaunch⟩ := no_read_no_launch_of_all_isPrint effs hall
    refine ⟨effs, ?_, hread, hlaunch⟩
    unfold _start_test
    rw [heq]
    rfl
  · intro hnil i hi hpos hn
    subst hnil
    have hc := check_clear_eq env cfg pattern task_name log_file view_cmd kill_cmd h
    have ho := confirm_cancel_eq env log_file i hi hpos hn
    have hrun : _start_test env cfg log_file pattern task_name view_cmd kill_cmd
        script success_message =
        Except.ok (([] : List Effect) ++
          ([Effect.print Msg.logExistsWarn, Effect.print (Msg.logPathLine log_file),
            Effect.print (Msg.logSizeLine (get_human_size env log_file)),
            Effect.readLine] ++ [Effect.print Msg.canceledByUser]), 1) := by
      unfold _start_test
      rw [hc]
      simp only [ho]
      rfl
    refine ⟨_, hrun, by simp, ?_⟩
    intro e he
    simp only [List.nil_append, List.mem_append, List.mem_cons,
      List.not_mem_nil, or_false] at he
    rcases he with (rfl | rfl | rfl | rfl) | rfl <;> rfl
  · intro hne
    obtain ⟨o, r, rfl⟩ : ∃ o r, bpids = o :: r := by
      cases bpids with
      | nil => exact absurd rfl hne
      | cons o r => exact ⟨o, r, rfl⟩
    obtain ⟨effs, heq, hall⟩ := check_conflict_all_prints env cfg "python3 -m pip"
      "Python Build" "" "" "te -b -k" o r htool hb
    obtain ⟨hread, hlaunch⟩ := no_read_no_launch_of_all_isPrint effs hall
    refine ⟨effs, ?_, hread, hlaunch⟩
    unfold build_te_func _common_build_check
    rw [heq]
    rfl
  · intro hnil i hi hpos hn
    subst hnil
    have hc := check_clear_eq env cfg "python3 -m pip" "Python Build" "" "" "te -b -k" hb
    have ho := confirm_cancel_eq env cfg.log_files.build_py i hi hpos hn
    have hrun : build_te_func env cfg =
        Except.ok (([] : List Effect) ++
          ([Effect.print Msg.logExistsWarn,
            Effect.print (Msg.logPathLine cfg.log_files.build_py),
            Effect.print (Msg.logSizeLine (get_human_size env cfg.log_files.build_py)),
            Effect.readLine] ++ [Effect.print Msg.canceledByUser]), 1) := by
      unfold build_te_func _common_build_check
      rw [hc]
      simp only [ho]
      rfl
    refine ⟨_, hrun, by simp, ?_⟩
    intro e he
    simp only [List.nil_append, List.mem_append, List.mem_cons,
      List.not_mem_nil, or_false] at he
    rcases he with (rfl | rfl | rfl | rfl) | rfl <;> rfl

/-- Environment for the C7 witness: every pattern matches one process. -/
def envC7 : Env := { baseEnv with pgrepRun := fun _ => RunOutcome.completed 0 "11\n" }

/-- C7 witness: `start_operation_guard_ordering` at `envC7` (conflicts on
both the test and the build path). -/
theorem start_operation_guard_ordering_witness :
    (∃ effs, _start_test envC7 cfg0 "L" "tp" "T" "v" "k" "s" "m" =
        Except.ok (effs, 1) ∧
      Effect.readLine ∉ effs ∧ ∀ e ∈ effs, isLaunchEffect e = false) ∧
    (∃ effs, build_te_func envC7 cfg0 = Except.ok (effs, 1) ∧
      Effect.readLine ∉ effs ∧ ∀ e ∈ effs, isLaunchEffect e = false) :=
  ⟨(start_operation_guard_ordering envC7 cfg0 "L" "tp" "T" "v" "k" "s" "m"
      ["11"] ["11"] (fun _ => by simp [envC7]) rfl rfl).1 (by simp),
   (start_operation_guard_ordering envC7 cfg0 "L" "tp" "T" "v" "k" "s" "m"
      ["11"] ["11"] (fun _ => by simp [envC7]) rfl rfl).2.2.1 (by simp)⟩

/-- C9 amended: a test start whose required parent directory is absent
returns status 2 (after both guards pass) — distinct from the
conflict/decline status 1 — but not every absent-path precondition yields
2: `rebuild_dev` with `te_path` unset returns 1. -/
theorem env_precondition_status (env : Env) (cfg : Config)
    (log_file pattern task_name view_cmd kill_cmd script success_message : String)
    (h : pgrep env pattern = Except.ok [])
    (hlog : env.fs log_file = none)
    (hdir : env.isDir (env.resolveParent cfg.te_path) = false) :
    _start_test env cfg log_file pattern task_name view_cmd kill_cmd script
      success_message = Except.ok ([], 2) ∧
    ∀ e args c, Config.te_path c = "" →
      rebuild_dev e c args = Except.ok ([Effect.print Msg.errorTePath], 1) := by
  constructor
  · have hc := check_clear_eq env cfg pattern task_name log_file view_cmd kill_cmd h
    unfold _start_test
    rw [hc]
    simp only [Bind.bind, Except.bind, confirm_if_log_exists, hlog]
    simp only [hdir]
    rfl
  · intro e args c hte
    unfold rebuild_dev
    rw [if_pos hte]
    rfl

/-- Environment for the C9 witness: no directory exists. -/
def envC9 : Env := { baseEnv with isDir := fun _ => false }

/-- C9 witness: `env_precondition_status` at `envC9` / `cfgNoTePath`. -/
theorem env_precondition_status_witness :
    _start_test envC9 cfg0 "L" "tp" "T" "v" "k" "s" "m" = Except.ok ([], 2) ∧
    rebuild_dev baseEnv cfgNoTePath ["a"] =
      Except.ok ([Effect.print Msg.errorTePath], 1) :=
  ⟨(env_precondition_status envC9 cfg0 "L" "tp" "T" "v" "k" "s" "m"
      rfl rfl rfl).1,
   (env_precondition_status envC9 cfg0 "L" "tp" "T" "v" "k" "s" "m"
      rfl rfl rfl).2 baseEnv ["a"] cfgNoTePath rfl⟩

/-- The Log Overwrite Guard never waits on a child process. -/
theorem confirm_no_waitChild (env : Env) (path : String) :
    Effect.waitChild ∉ (confirm_if_log_exists env path).1 := by
  rcases hfs : env.fs path with _ | i
  · simp [confirm_if_log_exists, hfs]
  · by_cases hs : i.size > 0
    · by_cases hy : pyStrip (readChoice env) = "y" ∨ pyStrip (readChoice env) = "Y"
      · simp [confirm_if_log_exists, hfs, hs, hy]
      · simp [confirm_if_log_exists, hfs, hs, hy]
    · simp [confirm_if_log_exists, hfs, hs]

/-- C4: every start operation that reaches the launch step is
fire-and-forget.  For the build launcher `_start_background_script` (all
arguments): it returns success (0), first truncate-opens the log file for
writing, spawns exactly one detached (`start_new_session`) process
running `bash -c script` under `nohup` with stdout directed to that log
and stderr merged into stdout, and performs no wait on the child.  For a
test start `_start_test` (all arguments) whose guards pass and whose
parent directory exists: it returns success (0) immediately after
emitting the same truncate-open followed by the same detached
merged-output spawn (with the parent directory as working directory),
again with no wait on the child anywhere in the run. -/
theorem launch_fire_and_forget (env : Env) (cfg : Config)
    (log_file script success_message log_mark pattern task_name view_cmd
      kill_cmd : String) :
    ((_start_background_script log_file script success_message log_mark).2 = 0 ∧
    (_start_background_script log_file script success_message log_mark).1.head? =
      some (Effect.openTruncWrite log_file) ∧
    Effect.spawnDetached ["nohup", "bash", "-c", script] log_file true none true ∈
      (_start_background_script log_file script success_message log_mark).1 ∧
    (∀ argv out me c ns,
      Effect.spawnDetached argv out me c ns ∈
        (_start_background_script log_file script success_message log_mark).1 →
      argv = ["nohup", "bash", "-c", script] ∧ out = log_file ∧ me = true ∧ ns = true) ∧
    Effect.waitChild ∉ (_start_background_script log_file script success_message log_mark).1) ∧
    (pgrep env pattern = Except.ok [] →
     (confirm_if_log_exists env log_file).2 = 0 →
     env.isDir (env.resolveParent cfg.te_path) = true →
      _start_test env cfg log_file pattern task_name view_cmd kill_cmd script
          success_message =
        Except.ok ((confirm_if_log_exists env log_file).1 ++
          [Effect.openTruncWrite log_file,
           Effect.spawnDetached ["nohup", "bash", "-c", script] log_file true
             (some (env.resolveParent cfg.te_path)) true,
           Effect.print (Msg.successMsg success_message),
           Effect.print (Msg.logLine "└─" log_file)], 0) ∧
      Effect.waitChild ∉ (confirm_if_log_exists env log_file).1 ++
        [Effect.openTruncWrite log_file,
         Effect.spawnDetached ["nohup", "bash", "-c", script] log_file true
           (some (env.resolveParent cfg.te_path)) true,
         Effect.print (Msg.successMsg success_message),
         Effect.print (Msg.logLine "└─" log_file)]) := by
  constructor
  · refine ⟨rfl, rfl, by simp [_start_background_script], ?_,
      by simp [_start_background_script]⟩
    intro argv out me c ns hmem
    simp [_start_background_script] at hmem
    exact ⟨hmem.1, hmem.2.1, hmem.2.2.1, hmem.2.2.2.2⟩
  · intro h hconf hdir
    obtain ⟨oeffs, hoeq⟩ : ∃ oe, confirm_if_log_exists env log_file = (oe, 0) := by
      rcases hrc : confirm_if_log_exists env log_file with ⟨oe, oc⟩
      rw [hrc] at hconf
      exact ⟨oe, by rw [show oc = 0 from hconf]⟩
    constructor
    · unfold _start_test
      rw [check_clear_eq env cfg pattern task_name log_file view_cmd kill_cmd h]
      simp only [hoeq, hdir]
      rfl
    · intro hmem
      rw [List.mem_append] at hmem
      rcases hmem with hmem | hmem
      · exact absurd hmem (confirm_no_waitChild env log_file)
      · simp at hmem

/-- C4 witness: `launch_fire_and_forget`'s test-start part at
`baseEnv`/`cfg0` (no conflict, missing log, parent directory present),
with its hypotheses discharged by evaluation. -/
theorem launch_fire_and_forget_witness :
    _start_test baseEnv cfg0 "L" "tp" "T" "v" "k" "s" "m" =
      Except.ok ((confirm_if_log_exists baseEnv "L").1 ++
        [Effect.openTruncWrite "L",
         Effect.spawnDetached ["nohup", "bash", "-c", "s"] "L" true
           (some (baseEnv.resolveParent cfg0.te_path)) true,
         Effect.print (Msg.successMsg "m"),
         Effect.print (Msg.logLine "└─" "L")], 0) :=
  ((launch_fire_and_forget baseEnv cfg0 "L" "s" "m" "└─" "tp" "T" "v" "k").2
    rfl rfl rfl).1

end TE
